import Mathlib

/-!
Verification development for the OpenContext news Q&A retrieval service.

The definitions below are shallow embeddings of the Python source:

* `src/llm_service.py` — the Q&A pair parser (`parse_qa_pairs`, a pair of
  regex conventions applied with a fallback) and the generation pipeline
  (`generate_qa_from_news`).
* `src/main.py` — the `/search` and `/generate` endpoint logic.
* `src/elasticsearch_client.py` — the relevance banding applied to raw
  Elasticsearch scores.
* `src/semantic_cache.py` — the semantic cache (`cosine_similarity`,
  `get_cached_result`, `store_result`).

Python floats are modelled as `ℚ` where only comparisons matter (scores)
and as `ℝ` where square roots appear (embedding norms).  Strings are
modelled over their character lists; whitespace and case handling follow
the ASCII behaviour of `str.strip`, `str.lower` and the regex classes.
-/

/-- Python whitespace (`\s` / `str.strip`), ASCII range: space, tab,
newline, carriage return, vertical tab, form feed. -/
def isPyWS (c : Char) : Bool :=
  c = ' ' || c = '\t' || c = '\n' || c = '\r' || c = '\x0b' || c = '\x0c'

/-- Python `str.strip()`: drop whitespace from both ends. -/
def pyStrip (l : List Char) : List Char :=
  ((l.dropWhile isPyWS).reverse.dropWhile isPyWS).reverse

/-- Skip the whitespace run at the head (the regex `\s*`, taken greedily). -/
def skipWS (l : List Char) : List Char := l.dropWhile isPyWS

/-- Case-sensitive literal match: drop `pat` from the head of `s`. -/
def dropLit : List Char → List Char → Option (List Char)
  | [], s => some s
  | _ :: _, [] => none
  | p :: ps, c :: cs => if p = c then dropLit ps cs else none

/-- The maximal digit run at the head (the regex `\d+`, ASCII digits),
with the rest of the input. -/
def takeDigits : List Char → List Char × List Char
  | [] => ([], [])
  | c :: cs =>
    if c.isDigit then
      let (ds, r) := takeDigits cs
      (c :: ds, r)
    else ([], c :: cs)

/-- Match the question tag of `parse_qa_pairs` (src/llm_service.py).
For `emph = false` this is the regex `Q(\d+):` of line 106; for
`emph = true` it is `\*\*Q(\d+):\*\*` of line 124.  The letter is matched
case-insensitively (`re.IGNORECASE`); the label (the digit run) and the
rest of the input are returned.  Also used, with `letter = 'q'`, as the
lookahead `(?=Q\d+:|…)`. -/
def matchTagGen (emph : Bool) (letter : Char) (s : List Char) :
    Option (List Char × List Char) :=
  match (if emph then dropLit ['*', '*'] s else some s) with
  | none => none
  | some s1 =>
    match s1 with
    | [] => none
    | c :: rest =>
      if c.toLower = letter then
        match takeDigits rest with
        | ([], _) => none
        | (ds, r1) =>
          match r1 with
          | ':' :: r2 =>
            if emph then (dropLit ['*', '*'] r2).map (fun r3 => (ds, r3))
            else some (ds, r2)
          | _ => none
      else none

/-- Match the answer tag with the back-referenced label: `A\1:` for the
plain convention, `\*\*A\1:\*\*` for the emphasized one.  The back
reference `\1` matches the label text exactly (digits are not
case-folded); the letter is case-insensitive. -/
def matchATag (emph : Bool) (label : List Char) (s : List Char) :
    Option (List Char) :=
  match (if emph then dropLit ['*', '*'] s else some s) with
  | none => none
  | some s1 =>
    match s1 with
    | [] => none
    | c :: rest =>
      if c.toLower = 'a' then
        match dropLit label rest with
        | none => none
        | some r1 =>
          match r1 with
          | ':' :: r2 => if emph then dropLit ['*', '*'] r2 else some r2
          | _ => none
      else none

/-- The lookahead `(?=Q\d+:|$)` (resp. `(?=\*\*Q\d+:\*\*|$)`) at a suffix
of the text.  Python `$` (without `re.MULTILINE`) matches at the end of
the string and also just before a trailing newline. -/
def lookaheadOK (emph : Bool) (s : List Char) : Bool :=
  s.isEmpty || s == ['\n'] || (matchTagGen emph 'q' s).isSome

/-- The search for the end of the lazy answer group `(.+?)` followed by
the lookahead: the shortest non-empty prefix of `body` whose tail
satisfies the lookahead. -/
def findSplitA (emph : Bool) (acc : List Char) :
    List Char → Option (List Char × List Char)
  | [] => none
  | c :: rest =>
    if lookaheadOK emph rest then some ((c :: acc).reverse, rest)
    else findSplitA emph (c :: acc) rest

/-- The answer phase `\s*(.+?)(?=Q\d+:|$)` after a matched answer tag.
The backtracking order of the regex engine (`\s*` greedy, then the lazy
group from short to long) reduces to: take the shortest non-empty prefix
of the text after the whitespace run whose tail satisfies the lookahead;
failing that, if at least one whitespace character preceded and the
lookahead already holds at the first non-whitespace position, the lazy
group captures the last whitespace character. -/
def findAnswer (emph : Bool) (s : List Char) :
    Option (List Char × List Char) :=
  let wsp := s.takeWhile isPyWS
  let body := s.dropWhile isPyWS
  match findSplitA emph [] body with
  | some ar => some ar
  | none =>
    if wsp.isEmpty then none
    else if lookaheadOK emph body then some ([wsp.getLastD ' '], body)
    else none

/-- The search for the end of the lazy question group `(.+?)`, followed by
`\s*`, the label-matched answer tag, and the whole answer phase: a failure
of the answer phase backtracks into the question group, so a question
split succeeds only when (skipping whitespace) the answer tag matches and
the answer phase succeeds after it.  Returns the question text, the
answer text and the rest of the input at the end of the match. -/
def findSplitQ (emph : Bool) (label : List Char) (acc : List Char) :
    List Char → Option (List Char × List Char × List Char)
  | [] => none
  | c :: rest =>
    match matchATag emph label (skipWS rest) with
    | some r2 =>
      match findAnswer emph r2 with
      | some (a, r3) => some ((c :: acc).reverse, a, r3)
      | none => findSplitQ emph label (c :: acc) rest
    | none => findSplitQ emph label (c :: acc) rest

/-- The question phase `\s*(.+?)\s*A\1:` (and the rest of the pattern)
after a matched question tag.  The engine's priority order (`\s*` greedy,
`(.+?)` lazy) reduces to: find the shortest non-whitespace-initial split
for which the answer tag and the answer phase go through; failing that,
if at least one whitespace character followed the question tag and the
answer tag stands directly at the first non-whitespace position with a
successful answer phase, the lazy group captures the last whitespace
character (a whitespace-only question, later dropped by the
strip-and-check in the caller). -/
def findQuestion (emph : Bool) (label : List Char) (s : List Char) :
    Option (List Char × List Char × List Char) :=
  let wsp := s.takeWhile isPyWS
  let body := s.dropWhile isPyWS
  match findSplitQ emph label [] body with
  | some qar => some qar
  | none =>
    if wsp.isEmpty then none
    else
      match matchATag emph label body with
      | some r2 =>
        match findAnswer emph r2 with
        | some (a, r3) => some ([wsp.getLastD ' '], a, r3)
        | none => none
      | none => none

/-- Attempt a full pair match of the `parse_qa_pairs` regex at a suffix of
the text: question tag, question group, back-referenced answer tag, answer
group, lookahead.  Returns the raw question and answer captures and the
suffix at the end of the match (the zero-width lookahead position, where
`re.findall` resumes scanning). -/
def tryPairAt (emph : Bool) (s : List Char) :
    Option (List Char × List Char × List Char) :=
  match matchTagGen emph 'q' s with
  | none => none
  | some (label, r1) => findQuestion emph label r1

/-- The `re.findall` scan: try a match at every position, left to right;
after a match, resume at its end.  Fuelled recursion: every successful
match consumes at least the question tag, so `length + 1` fuel always
suffices. -/
def scanGo (emph : Bool) : Nat → List Char → List (List Char × List Char)
  | 0, _ => []
  | _, [] => []
  | fuel + 1, c :: tail =>
    match tryPairAt emph (c :: tail) with
    | some (q, a, rest) => (q, a) :: scanGo emph fuel rest
    | none => scanGo emph fuel tail

/-- All raw (question, answer) captures of the given convention over the
text, in scan order. -/
def scanQA (emph : Bool) (s : List Char) : List (List Char × List Char) :=
  scanGo emph (s.length + 1) s

/-- `GeneratedQA` of src/llm_service.py. -/
structure GeneratedQA where
  question : String
  answer : String
  topic : String
  source : String
deriving DecidableEq, Repr

/-- The loop body of `parse_qa_pairs`: strip each capture and keep the
pair only when both sides remain non-empty (lines 109-119 and 127-137 of
src/llm_service.py). -/
def mkPairs (topic : String) (raw : List (List Char × List Char)) :
    List GeneratedQA :=
  raw.filterMap fun p =>
    let q := pyStrip p.1
    let a := pyStrip p.2
    if q.isEmpty || a.isEmpty then none
    else some { question := String.mk q, answer := String.mk a,
                topic := topic, source := "llm_generated" }

/-- `parse_qa_pairs` of src/llm_service.py (lines 92-139): apply the plain
`Q\d+:`/`A\d+:` convention; if it produces no kept pair, apply the
emphasized `**Q\d+:**`/`**A\d+:**` convention. -/
def parse_qa_pairs (text : String) (topic : String) : List GeneratedQA :=
  let primary := mkPairs topic (scanQA false text.data)
  if primary.isEmpty then mkPairs topic (scanQA true text.data)
  else primary

/-- `NewsResult` of src/news_service.py.  Articles are modelled by their
titles; source, published date and link do not influence the pipeline
outputs modelled here (they only feed the prompt of the external LLM). -/
structure NewsResult where
  success : Bool
  articles : List String
  total_count : Nat
  query : String
  error : String
deriving DecidableEq, Repr

/-- `GenerationResult` of src/llm_service.py. -/
structure GenerationResult where
  success : Bool
  qa_pairs : List GeneratedQA
  topic : String
  news_count : Nat
  error : String
deriving DecidableEq, Repr

/-- `generate_qa_from_news` of src/llm_service.py (lines 142-220), as a
function of the outcomes of its two external calls: the news fetch
(`fetch_google_news`, which catches its own exceptions and returns a
`NewsResult`) and the LLM invocation (`llm.ainvoke`; an exception there is
caught by the surrounding `try` and reported as a generation error).  The
prompt text and `num_pairs` only feed the external LLM, whose output is
the `llm_outcome` parameter. -/
def generate_qa_from_news (news_result : NewsResult)
    (llm_outcome : Except String String) (topic : String) (days : Nat)
    (_num_pairs : Nat) : GenerationResult :=
  if !news_result.success then
    { success := false, qa_pairs := [], topic := topic, news_count := 0,
      error := news_result.error }
  else if news_result.articles.isEmpty then
    { success := false, qa_pairs := [], topic := topic, news_count := 0,
      error := "No news found for '" ++ topic ++ "' in the last "
        ++ toString days ++ " days." }
  else
    match llm_outcome with
    | Except.error e =>
      { success := false, qa_pairs := [], topic := topic, news_count := 0,
        error := "Generation error: " ++ e }
    | Except.ok content =>
      if (parse_qa_pairs content topic).isEmpty then
        { success := false, qa_pairs := [], topic := topic,
          news_count := news_result.articles.length,
          error := "Failed to parse Q&A pairs from LLM response." }
      else
        { success := true, qa_pairs := parse_qa_pairs content topic,
          topic := topic, news_count := news_result.articles.length,
          error := "" }

/-- Relevance banding of raw Elasticsearch scores, src/elasticsearch_client.py
lines 189-196 (`if score >= 10: "high" elif score >= 5: "medium" else
"low"`).  Scores are floats compared against integer bounds; `ℚ` models
the comparisons exactly. -/
def relevanceBand (score : ℚ) : String :=
  if score ≥ 10 then "high" else if score ≥ 5 then "medium" else "low"

/-- A processed hit as returned by `ElasticsearchClient.search`
(src/elasticsearch_client.py lines 198-208); `relevance` is computed from
the raw score by `relevanceBand`, `score` is the (rounded) raw score. -/
structure Hit where
  id : String
  question : String
  answer : String
  topic : Option String
  source : Option String
  created_at : Option String
  score : ℚ
  relevance : String
deriving DecidableEq, Repr

/-- `QAPair` of src/models.py. -/
structure QAPair where
  id : Option String
  question : String
  answer : String
  topic : Option String
  source : Option String
  score : Option ℚ
  relevance : Option String
  created_at : Option String
deriving DecidableEq, Repr

/-- The hit-dict → `QAPair` conversion of src/main.py lines 163-175 for an
Elasticsearch hit. -/
def hitToQAPair (h : Hit) : QAPair :=
  { id := some h.id, question := h.question, answer := h.answer,
    topic := h.topic, source := h.source, score := some h.score,
    relevance := some h.relevance, created_at := h.created_at }

/-- The generated-pair → response dict conversion of src/main.py lines
147-159 (and its `QAPair` build at lines 163-175, also used at lines
224-233): no id, no score, no timestamp, relevance pinned to "high". -/
def genHitToQAPair (qa : GeneratedQA) : QAPair :=
  { id := none, question := qa.question, answer := qa.answer,
    topic := some qa.topic, source := some qa.source, score := none,
    relevance := some "high", created_at := none }

/-- `SearchResponse` of src/models.py; `query_time_ms` (wall-clock time)
is not modelled. -/
structure SearchResponse where
  query : String
  results : List QAPair
  total_hits : Nat
  source : String
deriving DecidableEq, Repr

/-- The outcome of a `/search` request: a 200 response together with the
list of documents upserted to Elasticsearch during the request (each
`index_document` call completes before the response is built), or an
`HTTPException`. -/
inductive SearchOutcome where
  | ok (resp : SearchResponse) (upserts : List GeneratedQA)
  | httpError (code : Nat) (detail : String)
deriving DecidableEq, Repr

/-- The `/search` endpoint `search_qa` of src/main.py (lines 106-188), as
a function of the outcomes of its external calls: the Elasticsearch
search (an exception there becomes HTTP 500), and the news fetch and LLM
invocation feeding `generate_qa_from_news` (called with `days = 7`,
`num_pairs = 5`).  `index_document` calls are modelled as succeeding and
are recorded in the outcome.  `top_k` and `min_score` only parameterize
the external search whose outcome is `es_outcome`. -/
def search_qa (es_outcome : Except String (List Hit))
    (news_result : NewsResult) (llm_outcome : Except String String)
    (query : String) (_top_k : Nat) (_min_score : ℚ)
    (fallback_to_llm : Bool) : SearchOutcome :=
  match es_outcome with
  | Except.error e => SearchOutcome.httpError 500 e
  | Except.ok esHits =>
    if esHits.isEmpty && fallback_to_llm then
      if (generate_qa_from_news news_result llm_outcome query 7 5).success
          && !(generate_qa_from_news news_result llm_outcome query 7 5).qa_pairs.isEmpty then
        SearchOutcome.ok
          { query := query,
            results := (generate_qa_from_news news_result llm_outcome
              query 7 5).qa_pairs.map genHitToQAPair,
            total_hits := (generate_qa_from_news news_result llm_outcome
              query 7 5).qa_pairs.length,
            source := "llm_generated" }
          (generate_qa_from_news news_result llm_outcome query 7 5).qa_pairs
      else
        SearchOutcome.ok
          { query := query, results := esHits.map hitToQAPair,
            total_hits := esHits.length, source := "elasticsearch" } []
    else
      SearchOutcome.ok
        { query := query, results := esHits.map hitToQAPair,
          total_hits := esHits.length, source := "elasticsearch" } []

/-- `GenerateResponse` of src/models.py; `generation_time_ms` is not
modelled. -/
structure GenerateResponse where
  topic : String
  results : List QAPair
  news_count : Nat
  indexed : Bool
deriving DecidableEq, Repr

/-- The outcome of a `/generate` request, with the upserted documents
recorded as for `SearchOutcome`. -/
inductive GenerateOutcome where
  | ok (resp : GenerateResponse) (upserts : List GeneratedQA)
  | httpError (code : Nat) (detail : String)
deriving DecidableEq, Repr

/-- The `/generate` endpoint `generate_qa` of src/main.py (lines 191-248):
a failed generation raises `HTTPException(400, result.error)`; otherwise
the pairs are indexed and returned with relevance "high". -/
def generate_qa_endpoint (news_result : NewsResult)
    (llm_outcome : Except String String) (topic : String)
    (days num_pairs : Nat) : GenerateOutcome :=
  if !(generate_qa_from_news news_result llm_outcome topic days
      num_pairs).success then
    GenerateOutcome.httpError 400
      (generate_qa_from_news news_result llm_outcome topic days
        num_pairs).error
  else
    GenerateOutcome.ok
      { topic := topic,
        results := (generate_qa_from_news news_result llm_outcome topic days
          num_pairs).qa_pairs.map genHitToQAPair,
        news_count := (generate_qa_from_news news_result llm_outcome topic
          days num_pairs).news_count,
        indexed := !(generate_qa_from_news news_result llm_outcome topic
          days num_pairs).qa_pairs.isEmpty }
      (generate_qa_from_news news_result llm_outcome topic days
        num_pairs).qa_pairs

/-- The dot product `np.dot(emb1, emb2)` over the common length of the
two vectors (src/semantic_cache.py line 81; equal-length model vectors in
practice). -/
def dotProduct (a b : List ℝ) : ℝ :=
  (List.zipWith (fun x y => x * y) a b).sum

/-- `np.linalg.norm(v)`: the Euclidean norm, the square root of the sum
of squares. -/
noncomputable def l2norm (v : List ℝ) : ℝ :=
  Real.sqrt ((v.map (fun x => x * x)).sum)

open scoped Classical in
/-- Division modelled as fallible: `none` stands for the division-by-zero
error the guard of `cosine_similarity` is there to prevent. -/
noncomputable def safeDiv (x y : ℝ) : Option ℝ :=
  if y = 0 then none else some (x / y)

open scoped Classical in
/-- `SemanticCache.cosine_similarity` (src/semantic_cache.py lines 79-86)
with the division kept fallible: `dot / (norm1 * norm2)` guarded by
`if norm1 == 0 or norm2 == 0: return 0.0`. -/
noncomputable def cosine_similarity (emb1 emb2 : List ℝ) : Option ℝ :=
  if l2norm emb1 = 0 ∨ l2norm emb2 = 0 then some 0
  else safeDiv (dotProduct emb1 emb2) (l2norm emb1 * l2norm emb2)

open scoped Classical in
/-- The value computed by `cosine_similarity` (the guard makes the
function total; `cosine_eq_val` below proves the two agree). -/
noncomputable def cosineVal (emb1 emb2 : List ℝ) : ℝ :=
  if l2norm emb1 = 0 ∨ l2norm emb2 = 0 then 0
  else dotProduct emb1 emb2 / (l2norm emb1 * l2norm emb2)

/-- Query normalization of src/semantic_cache.py lines 104, 108, 147:
`query.strip().lower()`. -/
def normalizeQ (s : String) : String :=
  String.mk ((pyStrip s.data).map Char.toLower)

/-- A cache entry (src/semantic_cache.py lines 154-158): the verbatim
query, the cached result payload, and the query's embedding. -/
structure CacheEntry where
  query : String
  result : String
  embedding : List ℝ

/-- The mutable state of a `SemanticCache`: threshold, hit/miss counters
and the entry list.  The persistence file mirrors entries and counters
and is rewritten by `_save_cache` after every mutation; it is not
modelled separately. -/
structure CacheState where
  threshold : ℝ
  hits : Nat
  misses : Nat
  cache : List CacheEntry

open scoped Classical in
/-- The similarity scan of `get_cached_result` (src/semantic_cache.py
lines 117-125): fold over the entries keeping the best (match, score)
seen, updating only on a strict improvement (`similarity >
best_similarity`, starting from `best_match = None, best_similarity =
0.0`). -/
noncomputable def scanBest (qe : List ℝ) :
    List CacheEntry → Option (String × ℝ) × ℝ → Option (String × ℝ) × ℝ
  | [], st => st
  | e :: rest, (bm, bs) =>
    if cosineVal qe e.embedding > bs then
      scanBest qe rest
        (some (e.result, cosineVal qe e.embedding), cosineVal qe e.embedding)
    else scanBest qe rest (bm, bs)

open scoped Classical in
/-- `SemanticCache.get_cached_result` (src/semantic_cache.py lines
88-136) as a state transformer, parameterized by the embedding model
`embed` (`SentenceTransformer.encode`, external).  Empty cache: count a
miss.  Exact normalized-string match: count a hit, return the entry's
result with similarity 1.0.  Otherwise scan embeddings; at or above the
threshold count a hit and return the best match, else count a miss. -/
noncomputable def get_cached_result (embed : String → List ℝ)
    (st : CacheState) (query : String) :
    Option (String × ℝ) × CacheState :=
  if st.cache.isEmpty then (none, { st with misses := st.misses + 1 })
  else
    match st.cache.find? (fun e => normalizeQ e.query == normalizeQ query) with
    | some e => (some (e.result, 1), { st with hits := st.hits + 1 })
    | none =>
      let best := scanBest (embed query) st.cache (none, 0)
      if st.threshold ≤ best.2 then (best.1, { st with hits := st.hits + 1 })
      else (none, { st with misses := st.misses + 1 })

/-- `SemanticCache.store_result` (src/semantic_cache.py lines 138-161):
no-op when an entry with the same normalized query exists, otherwise
append a new entry with the query's embedding. -/
def store_result (embed : String → List ℝ) (st : CacheState)
    (query result : String) : CacheState :=
  if st.cache.any (fun e => normalizeQ e.query == normalizeQ query) then st
  else
    { st with cache := st.cache ++
        [{ query := query, result := result, embedding := embed query }] }

/-- A concrete embedding model for the C2 counterexample: the uppercase
and lowercase spellings of the same query embed to orthogonal vectors (as
a sentence-transformer may legitimately do). -/
def embedC2 : String → List ℝ := fun q => if q = "A" then [1, 0] else [0, 1]

/-- The single stored entry of the C2 counterexample, holding the
embedding of its original query "A". -/
def cacheEntryC2 : CacheEntry :=
  { query := "A", result := "r", embedding := [1, 0] }

/-- The cache state of the C2 counterexample, at the default 0.85
threshold. -/
noncomputable def cacheStateC2 : CacheState :=
  { threshold := 0.85, hits := 0, misses := 0, cache := [cacheEntryC2] }

/-- A concrete embedding model for the C10 counterexample: every query
embeds to `[-1]`, anti-parallel to the stored entry's embedding. -/
def embedC10 : String → List ℝ := fun _ => [-1]

/-- The cache state of the C10 counterexample: one entry and a zero
threshold (any non-positive threshold exhibits the same behaviour). -/
def cacheStateC10 : CacheState :=
  { threshold := 0, hits := 0, misses := 0,
    cache := [{ query := "a", result := "r", embedding := [1] }] }

/-! ## Helper lemmas -/

lemma pyStrip_eq_rdropWhile (l : List Char) :
    pyStrip l = List.rdropWhile isPyWS (l.dropWhile isPyWS) := rfl

lemma pyStrip_idem (l : List Char) : pyStrip (pyStrip l) = pyStrip l := by
  rw [pyStrip_eq_rdropWhile, pyStrip_eq_rdropWhile]
  have h1 : (List.rdropWhile isPyWS (l.dropWhile isPyWS)).dropWhile isPyWS
      = List.rdropWhile isPyWS (l.dropWhile isPyWS) := by
    rcases h : List.rdropWhile isPyWS (l.dropWhile isPyWS) with _ | ⟨a, t⟩
    · rfl
    · rw [List.dropWhile_eq_self_iff]
      intro hl
      have hpre := List.rdropWhile_prefix isPyWS (l.dropWhile isPyWS)
      rw [h] at hpre
      obtain ⟨t2, ht2⟩ := hpre
      have hcons : List.dropWhile isPyWS l = a :: (t ++ t2) := by
        rw [← ht2, List.cons_append]
      have hlen : 0 < (l.dropWhile isPyWS).length := by
        rw [hcons]; simp
      have hnot := List.dropWhile_get_zero_not isPyWS l hlen
      simp only [List.get_eq_getElem, hcons, List.getElem_cons_zero] at hnot
      simpa using hnot
  rw [h1, List.rdropWhile_idempotent]

lemma mem_mkPairs {topic : String} {raw : List (List Char × List Char)}
    {qa : GeneratedQA} (h : qa ∈ mkPairs topic raw) :
    qa.question.data = pyStrip qa.question.data ∧ qa.question ≠ ""
    ∧ qa.answer.data = pyStrip qa.answer.data ∧ qa.answer ≠ "" := by
  unfold mkPairs at h
  rw [List.mem_filterMap] at h
  obtain ⟨p, -, hp⟩ := h
  by_cases hc : ((pyStrip p.1).isEmpty || (pyStrip p.2).isEmpty) = true
  · rw [if_pos hc] at hp
    exact absurd hp (by simp)
  · rw [if_neg hc] at hp
    injection hp with hp
    subst hp
    simp only [Bool.or_eq_true, not_or, Bool.not_eq_true] at hc
    obtain ⟨hq, ha⟩ := hc
    refine ⟨?_, ?_, ?_, ?_⟩
    · exact (pyStrip_idem p.1).symm
    · intro hcon
      have hd : pyStrip p.1 = [] := congrArg String.data hcon
      rw [hd] at hq
      simp at hq
    · exact (pyStrip_idem p.2).symm
    · intro hcon
      have hd : pyStrip p.2 = [] := congrArg String.data hcon
      rw [hd] at ha
      simp at ha

lemma mem_parse_qa_pairs {text topic : String} {qa : GeneratedQA}
    (h : qa ∈ parse_qa_pairs text topic) :
    qa.question.data = pyStrip qa.question.data ∧ qa.question ≠ ""
    ∧ qa.answer.data = pyStrip qa.answer.data ∧ qa.answer ≠ "" := by
  unfold parse_qa_pairs at h
  by_cases hp : (mkPairs topic (scanQA false text.data)).isEmpty
  · rw [if_pos hp] at h
    exact mem_mkPairs h
  · rw [if_neg hp] at h
    exact mem_mkPairs h

lemma generate_success_pairs (nr : NewsResult) (llm : Except String String)
    (topic : String) (days np : Nat) :
    (generate_qa_from_news nr llm topic days np).success = true →
    (generate_qa_from_news nr llm topic days np).qa_pairs.isEmpty = false := by
  unfold generate_qa_from_news
  split
  · intro h; simp at h
  · split
    · intro h; simp at h
    · split
      · intro h; simp at h
      · split
        · intro h; simp at h
        · intro _; simp_all

/-! ## C6: relevance banding -/

/-- C6: for every raw score `s`, the relevance band is "high" iff s ≥ 10,
"medium" iff 5 ≤ s < 10 and "low" iff s < 5; in particular 10.0 bands
high, 9.99 and 5.0 band medium, and 4.99 bands low. -/
theorem c6_relevance_banding :
    (∀ s : ℚ, (relevanceBand s = "high" ↔ 10 ≤ s)
      ∧ (relevanceBand s = "medium" ↔ 5 ≤ s ∧ s < 10)
      ∧ (relevanceBand s = "low" ↔ s < 5))
    ∧ relevanceBand 10 = "high" ∧ relevanceBand 9.99 = "medium"
    ∧ relevanceBand 5 = "medium" ∧ relevanceBand 4.99 = "low" := by
  refine ⟨fun s => ?_, by norm_num [relevanceBand],
    by norm_num [relevanceBand], by norm_num [relevanceBand],
    by norm_num [relevanceBand]⟩
  unfold relevanceBand
  split_ifs with h1 h2
  · refine ⟨by simp [h1], ?_, ?_⟩
    · exact ⟨fun h => absurd h (by decide), fun h => absurd h1 (by linarith [h.2])⟩
    · exact ⟨fun h => absurd h (by decide), fun h => absurd h1 (by linarith)⟩
  · refine ⟨?_, ?_, ?_⟩
    · exact ⟨fun h => absurd h (by decide), fun h => absurd h h1⟩
    · exact ⟨fun _ => ⟨h2, by linarith [not_le.mp h1]⟩, fun _ => rfl⟩
    · exact ⟨fun h => absurd h (by decide), fun h => absurd h2 (by linarith)⟩
  · refine ⟨?_, ?_, ?_⟩
    · exact ⟨fun h => absurd h (by decide), fun h => absurd h h1⟩
    · exact ⟨fun h => absurd h (by decide), fun h => absurd h.1 h2⟩
    · exact ⟨fun _ => not_le.mp h2, fun _ => rfl⟩

/-! ## C3: zero articles from a successful news fetch -/

/-- C3 counterexample: with a successful news fetch returning zero
articles, the pipeline reports `success = false` (a failure-flagged
result), contradicting the claim that this is a normal successful
outcome. -/
theorem c3_counterexample :
    (generate_qa_from_news
        { success := true, articles := [], total_count := 0, query := "ai",
          error := "" } (Except.ok "") "ai" 7 5).success = false
    ∧ (generate_qa_from_news
        { success := true, articles := [], total_count := 0, query := "ai",
          error := "" } (Except.ok "") "ai" 7 5).qa_pairs = []
    ∧ (generate_qa_from_news
        { success := true, articles := [], total_count := 0, query := "ai",
          error := "" } (Except.ok "") "ai" 7 5).error ≠ "" := by
  refine ⟨rfl, rfl, ?_⟩
  decide

/-- C3 (amended): when the news collaborator succeeds with zero articles
the pipeline returns an empty result (no pairs, news_count 0) with a
descriptive reason naming the topic and window, but flagged
`success = false`: the no-content outcome is reported through the failure
flag (and `/generate` turns it into a 400 client error), not as a normal
success. -/
theorem c3_no_news_empty_failure :
    ∀ (nr : NewsResult) (llm : Except String String) (topic : String)
      (days np : Nat), nr.success = true → nr.articles = [] →
    generate_qa_from_news nr llm topic days np =
      { success := false, qa_pairs := [], topic := topic, news_count := 0,
        error := "No news found for '" ++ topic ++ "' in the last "
          ++ toString days ++ " days." }
    ∧ (generate_qa_from_news nr llm topic days np).error ≠ "" := by
  intro nr llm topic days np hs ha
  have heq : generate_qa_from_news nr llm topic days np =
      { success := false, qa_pairs := [], topic := topic, news_count := 0,
        error := "No news found for '" ++ topic ++ "' in the last "
          ++ toString days ++ " days." } := by
    unfold generate_qa_from_news
    rw [hs, ha]
    simp
  refine ⟨heq, ?_⟩
  rw [heq]
  intro hcon
  have hlen := congrArg String.length hcon
  simp only [String.length_append] at hlen
  have h19 : ("No news found for '" : String).length = 19 := by decide
  rw [h19] at hlen
  simp at hlen

/-- Witness for C3's amended theorem at a concrete input. -/
theorem c3_witness :
    generate_qa_from_news
      { success := true, articles := [], total_count := 0, query := "ai",
        error := "" } (Except.ok "") "ai" 7 5 =
      { success := false, qa_pairs := [], topic := "ai", news_count := 0,
        error := "No news found for '" ++ "ai" ++ "' in the last "
          ++ toString 7 ++ " days." }
    ∧ (generate_qa_from_news
        { success := true, articles := [], total_count := 0, query := "ai",
          error := "" } (Except.ok "") "ai" 7 5).error ≠ "" :=
  c3_no_news_empty_failure
    { success := true, articles := [], total_count := 0, query := "ai",
      error := "" } (Except.ok "") "ai" 7 5 rfl rfl

/-! ## C4: generation failure during search fallback -/

/-- C4 counterexample: the news fetch inside the generation pipeline
fails (so generation fails with a human-readable reason), yet the
`/search` endpoint returns a plain 200 response with zero results and
source "elasticsearch" — an empty success indistinguishable from a
no-content outcome, with the failure reason discarded. -/
theorem c4_counterexample :
    search_qa (Except.ok [])
      { success := false, articles := [], total_count := 0, query := "ai",
        error := "news service down" } (Except.ok "") "ai" 10 1 true
      = SearchOutcome.ok
          { query := "ai", results := [], total_hits := 0,
            source := "elasticsearch" } []
    ∧ (generate_qa_from_news
        { success := false, articles := [], total_count := 0, query := "ai",
          error := "news service down" } (Except.ok "") "ai" 7 5).success
        = false
    ∧ (generate_qa_from_news
        { success := false, articles := [], total_count := 0, query := "ai",
          error := "news service down" } (Except.ok "") "ai" 7 5).error
        = "news service down" := by
  refine ⟨rfl, rfl, rfl⟩

/-- C4 (amended): in the `/search` endpoint a generation failure (news
fetch or LLM) during fallback is silently converted to an empty 200
response with source "elasticsearch", the failure reason being dropped;
only the `/generate` endpoint surfaces the failure, as HTTP 400 carrying
the human-readable reason. -/
theorem c4_search_swallows_generation_failure :
    (∀ (nr : NewsResult) (llm : Except String String) (q : String)
        (tk : Nat) (ms : ℚ),
      (generate_qa_from_news nr llm q 7 5).success = false →
      search_qa (Except.ok []) nr llm q tk ms true
        = SearchOutcome.ok
            { query := q, results := [], total_hits := 0,
              source := "elasticsearch" } [])
    ∧ (∀ (nr : NewsResult) (llm : Except String String) (topic : String)
        (days np : Nat),
      (generate_qa_from_news nr llm topic days np).success = false →
      generate_qa_endpoint nr llm topic days np
        = GenerateOutcome.httpError 400
            (generate_qa_from_news nr llm topic days np).error) := by
  constructor
  · intro nr llm q tk ms hf
    unfold search_qa
    rw [hf]
    simp
  · intro nr llm topic days np hf
    unfold generate_qa_endpoint
    rw [hf]
    simp

/-- Witness for C4's amended theorem at a concrete input. -/
theorem c4_witness :
    search_qa (Except.ok [])
      { success := false, articles := [], total_count := 0, query := "ai",
        error := "news service down" } (Except.ok "") "ai" 10 1 true
      = SearchOutcome.ok
          { query := "ai", results := [], total_hits := 0,
            source := "elasticsearch" } []
    ∧ generate_qa_endpoint
        { success := false, articles := [], total_count := 0, query := "ai",
          error := "news service down" } (Except.ok "") "ai" 7 5
      = GenerateOutcome.httpError 400
          (generate_qa_from_news
            { success := false, articles := [], total_count := 0,
              query := "ai", error := "news service down" }
            (Except.ok "") "ai" 7 5).error :=
  ⟨c4_search_swallows_generation_failure.1
      { success := false, articles := [], total_count := 0, query := "ai",
        error := "news service down" } (Except.ok "") "ai" 10 1 rfl,
    c4_search_swallows_generation_failure.2
      { success := false, articles := [], total_count := 0, query := "ai",
        error := "news service down" } (Except.ok "") "ai" 7 5 rfl⟩

/-! ## C1: search fallback to generation -/

/-- C1: when Elasticsearch returns zero hits, fallback is enabled and the
generation pipeline succeeds, the `/search` endpoint returns a response
with source "llm_generated", `total_hits` equal to the number of parsed
pairs, relevance "high" on every returned pair, and every parsed pair
recorded as upserted to the index (each `index_document` call is awaited
before the response is built). -/
theorem c1_search_fallback_generation :
    ∀ (nr : NewsResult) (llm : Except String String) (q : String)
      (tk : Nat) (ms : ℚ),
    (generate_qa_from_news nr llm q 7 5).success = true →
    search_qa (Except.ok []) nr llm q tk ms true
      = SearchOutcome.ok
          { query := q,
            results := (generate_qa_from_news nr llm q 7 5).qa_pairs.map
              genHitToQAPair,
            total_hits := (generate_qa_from_news nr llm q 7 5).qa_pairs.length,
            source := "llm_generated" }
          (generate_qa_from_news nr llm q 7 5).qa_pairs
    ∧ ∀ p ∈ (generate_qa_from_news nr llm q 7 5).qa_pairs.map genHitToQAPair,
        p.relevance = some "high" := by
  intro nr llm q tk ms hs
  have hne := generate_success_pairs nr llm q 7 5 hs
  constructor
  · unfold search_qa
    rw [hs, hne]
    simp
  · intro p hp
    rw [List.mem_map] at hp
    obtain ⟨qa, -, rfl⟩ := hp
    rfl

/-- Witness for C1 at a concrete input: a stub generation output with two
well-formed pairs. -/
theorem c1_witness :
    search_qa (Except.ok [])
      { success := true, articles := ["headline one"], total_count := 1,
        query := "ai", error := "" }
      (Except.ok "Q1: What happened? A1: Something. Q2: Why? A2: Reasons.")
      "ai" 10 1 true
      = SearchOutcome.ok
          { query := "ai",
            results := (generate_qa_from_news
              { success := true, articles := ["headline one"],
                total_count := 1, query := "ai", error := "" }
              (Except.ok "Q1: What happened? A1: Something. Q2: Why? A2: Reasons.")
              "ai" 7 5).qa_pairs.map genHitToQAPair,
            total_hits := (generate_qa_from_news
              { success := true, articles := ["headline one"],
                total_count := 1, query := "ai", error := "" }
              (Except.ok "Q1: What happened? A1: Something. Q2: Why? A2: Reasons.")
              "ai" 7 5).qa_pairs.length,
            source := "llm_generated" }
          (generate_qa_from_news
            { success := true, articles := ["headline one"],
              total_count := 1, query := "ai", error := "" }
            (Except.ok "Q1: What happened? A1: Something. Q2: Why? A2: Reasons.")
            "ai" 7 5).qa_pairs
    ∧ ∀ p ∈ (generate_qa_from_news
          { success := true, articles := ["headline one"],
            total_count := 1, query := "ai", error := "" }
          (Except.ok "Q1: What happened? A1: Something. Q2: Why? A2: Reasons.")
          "ai" 7 5).qa_pairs.map genHitToQAPair,
        p.relevance = some "high" :=
  c1_search_fallback_generation
    { success := true, articles := ["headline one"], total_count := 1,
      query := "ai", error := "" }
    (Except.ok "Q1: What happened? A1: Something. Q2: Why? A2: Reasons.")
    "ai" 10 1 (by decide)

/-! ## C7: parser on the canonical two-pair text -/

/-- C7: parsing "Q1: What? A1: Answer. Q2: When? A2: Soon." yields exactly
two pairs in text order with no leading or trailing whitespace, and in
general every returned pair has strip-invariant, non-empty question and
answer text (whitespace-only or missing sides are dropped). -/
theorem c7_parser_two_pairs :
    parse_qa_pairs "Q1: What? A1: Answer. Q2: When? A2: Soon." "news"
      = [{ question := "What?", answer := "Answer.", topic := "news",
           source := "llm_generated" },
         { question := "When?", answer := "Soon.", topic := "news",
           source := "llm_generated" }]
    ∧ ∀ (text topic : String) (qa : GeneratedQA),
        qa ∈ parse_qa_pairs text topic →
        qa.question.data = pyStrip qa.question.data ∧ qa.question ≠ ""
        ∧ qa.answer.data = pyStrip qa.answer.data ∧ qa.answer ≠ "" := by
  refine ⟨by decide, ?_⟩
  intro text topic qa h
  exact mem_parse_qa_pairs h

/-- Witness for C7's general clause at a concrete parsed pair. -/
theorem c7_witness :
    (GeneratedQA.mk "What?" "Answer." "news" "llm_generated").question.data
      = pyStrip (GeneratedQA.mk "What?" "Answer." "news"
          "llm_generated").question.data
    ∧ (GeneratedQA.mk "What?" "Answer." "news" "llm_generated").question ≠ ""
    ∧ (GeneratedQA.mk "What?" "Answer." "news" "llm_generated").answer.data
      = pyStrip (GeneratedQA.mk "What?" "Answer." "news"
          "llm_generated").answer.data
    ∧ (GeneratedQA.mk "What?" "Answer." "news" "llm_generated").answer ≠ "" :=
  c7_parser_two_pairs.2 "Q1: What? A1: Answer. Q2: When? A2: Soon." "news"
    (GeneratedQA.mk "What?" "Answer." "news" "llm_generated") (by decide)

/-! ## C8: fallback to the emphasized label convention -/

/-- C8: when the plain convention recovers zero pairs the parser retries
with the emphasized convention before reporting zero pairs; a text
written purely in the emphasized convention yields the correct pair
count (two); and a text with no pairs at all yields the empty list, not
an error. -/
theorem c8_parser_fallback_convention :
    (∀ (text topic : String),
      mkPairs topic (scanQA false text.data) = [] →
      parse_qa_pairs text topic = mkPairs topic (scanQA true text.data))
    ∧ (parse_qa_pairs
        "**Q1:** What? **A1:** Answer. **Q2:** When? **A2:** Soon."
        "news").length = 2
    ∧ parse_qa_pairs "no pairs in this text" "news" = [] := by
  refine ⟨?_, by decide, by decide⟩
  intro text topic h
  unfold parse_qa_pairs
  rw [h]
  simp

/-- Witness for C8's fallback clause at a concrete input on which the
primary convention recovers nothing. -/
theorem c8_witness :
    parse_qa_pairs "xyz" "news"
      = mkPairs "news" (scanQA true "xyz".data) :=
  c8_parser_fallback_convention.1 "xyz" "news" (by decide)

/-! ## C9: cosine similarity totality -/

lemma cosine_eq_val (a b : List ℝ) :
    cosine_similarity a b = some (cosineVal a b) := by
  unfold cosine_similarity cosineVal safeDiv
  split_ifs with h h2
  · rfl
  · exact absurd (mul_eq_zero.mp h2) h
  · rfl

/-- C9: the cosine-similarity computation is total: it always returns a
value (the division-by-zero branch is guarded and never reached), the
value is 0 when either vector has zero norm, and otherwise it is
`dot(a,b) / (‖a‖ · ‖b‖)`. -/
theorem c9_cosine_similarity_total :
    ∀ emb1 emb2 : List ℝ,
    cosine_similarity emb1 emb2 = some (cosineVal emb1 emb2)
    ∧ (l2norm emb1 = 0 ∨ l2norm emb2 = 0 →
        cosine_similarity emb1 emb2 = some 0)
    ∧ (l2norm emb1 ≠ 0 → l2norm emb2 ≠ 0 →
        cosine_similarity emb1 emb2
          = some (dotProduct emb1 emb2 / (l2norm emb1 * l2norm emb2))) := by
  intro a b
  refine ⟨cosine_eq_val a b, ?_, ?_⟩
  · intro h
    unfold cosine_similarity
    rw [if_pos h]
  · intro h1 h2
    rw [cosine_eq_val]
    unfold cosineVal
    rw [if_neg (by tauto)]

/-- Witness for C9 at concrete vectors: a zero vector paired with a unit
vector takes the guarded branch, and two unit vectors take the division
branch. -/
theorem c9_witness :
    cosine_similarity [(0 : ℝ)] [(1 : ℝ)] = some 0
    ∧ cosine_similarity [(1 : ℝ)] [(1 : ℝ)]
      = some (dotProduct [(1 : ℝ)] [(1 : ℝ)]
          / (l2norm [(1 : ℝ)] * l2norm [(1 : ℝ)])) := by
  constructor
  · exact (c9_cosine_similarity_total [0] [1]).2.1
      (Or.inl (by simp [l2norm]))
  · exact (c9_cosine_similarity_total [1] [1]).2.2
      (by simp [l2norm]) (by simp [l2norm])

/-! ## Cache lemmas -/

lemma scanBest_snd_ge_iff (qe : List ℝ) (t : ℝ) :
    ∀ (l : List CacheEntry) (bm : Option (String × ℝ)) (bs : ℝ),
    (t ≤ (scanBest qe l (bm, bs)).2
      ↔ t ≤ bs ∨ ∃ e ∈ l, t ≤ cosineVal qe e.embedding) := by
  intro l
  induction l with
  | nil =>
    intro bm bs
    simp [scanBest]
  | cons e rest ih =>
    intro bm bs
    unfold scanBest
    by_cases h : cosineVal qe e.embedding > bs
    · rw [if_pos h, ih]
      constructor
      · rintro (h1 | ⟨e2, he2, h2⟩)
        · exact Or.inr ⟨e, List.mem_cons_self e rest, h1⟩
        · exact Or.inr ⟨e2, List.mem_cons_of_mem _ he2, h2⟩
      · rintro (h1 | ⟨e2, he2, h2⟩)
        · exact Or.inl (by linarith)
        · rcases List.mem_cons.mp he2 with rfl | hmem
          · exact Or.inl h2
          · exact Or.inr ⟨e2, hmem, h2⟩
    · rw [if_neg h, ih]
      push_neg at h
      constructor
      · rintro (h1 | ⟨e2, he2, h2⟩)
        · exact Or.inl h1
        · exact Or.inr ⟨e2, List.mem_cons_of_mem _ he2, h2⟩
      · rintro (h1 | ⟨e2, he2, h2⟩)
        · exact Or.inl h1
        · rcases List.mem_cons.mp he2 with rfl | hmem
          · exact Or.inl (by linarith)
          · exact Or.inr ⟨e2, hmem, h2⟩

lemma scanBest_cases (qe : List ℝ) :
    ∀ (l : List CacheEntry) (bm : Option (String × ℝ)) (bs : ℝ),
    scanBest qe l (bm, bs) = (bm, bs)
      ∨ (scanBest qe l (bm, bs)).1.isSome = true := by
  intro l
  induction l with
  | nil =>
    intro bm bs
    exact Or.inl rfl
  | cons e rest ih =>
    intro bm bs
    unfold scanBest
    by_cases h : cosineVal qe e.embedding > bs
    · rw [if_pos h]
      rcases ih (some (e.result, cosineVal qe e.embedding))
          (cosineVal qe e.embedding) with heq | hs
      · right
        rw [heq]
        rfl
      · right
        exact hs
    · rw [if_neg h]
      exact ih bm bs

lemma find_none_of_no_match {st : CacheState} {q : String}
    (hex : ∀ e ∈ st.cache, normalizeQ e.query ≠ normalizeQ q) :
    st.cache.find? (fun e => normalizeQ e.query == normalizeQ q) = none := by
  rw [List.find?_eq_none]
  intro e he
  simpa using hex e he

lemma lookup_empty_eq {embed : String → List ℝ} {st : CacheState}
    {q : String} (hemp : st.cache.isEmpty = true) :
    get_cached_result embed st q
      = (none, { st with misses := st.misses + 1 }) := by
  unfold get_cached_result
  rw [if_pos hemp]

lemma lookup_exact_eq {embed : String → List ℝ} {st : CacheState}
    {q : String} {e : CacheEntry} (hemp : st.cache.isEmpty = false)
    (hfind : st.cache.find?
      (fun e2 => normalizeQ e2.query == normalizeQ q) = some e) :
    get_cached_result embed st q
      = (some (e.result, 1), { st with hits := st.hits + 1 }) := by
  unfold get_cached_result
  rw [if_neg (by simp [hemp]), hfind]

open scoped Classical in
lemma lookup_scan_eq {embed : String → List ℝ} {st : CacheState}
    {q : String} (hemp : st.cache.isEmpty = false)
    (hfind : st.cache.find?
      (fun e => normalizeQ e.query == normalizeQ q) = none) :
    get_cached_result embed st q
      = if st.threshold ≤ (scanBest (embed q) st.cache (none, 0)).2
        then ((scanBest (embed q) st.cache (none, 0)).1,
              { st with hits := st.hits + 1 })
        else (none, { st with misses := st.misses + 1 }) := by
  unfold get_cached_result
  rw [if_neg (by simp [hemp]), hfind]

/-! ## C2: lookup threshold boundary -/

/-- C2 counterexample: at threshold 0.85 a query whose maximal embedding
cosine similarity against the stored entries is 0 (below threshold) is
nevertheless returned as a hit, because the exact normalized-string match
fast path (src/semantic_cache.py lines 106-112) bypasses the threshold
entirely.  The claim "`lookup` returns a hit iff s ≥ τ" is therefore
false as stated. -/
theorem c2_counterexample :
    (get_cached_result embedC2 cacheStateC2 "a").1 = some ("r", 1)
    ∧ cacheStateC2.cache = [cacheEntryC2]
    ∧ cosineVal (embedC2 "a") cacheEntryC2.embedding < cacheStateC2.threshold := by
  refine ⟨?_, rfl, ?_⟩
  · rfl
  · have h1 : l2norm [(0 : ℝ), 1] = 1 := by
      simp [l2norm]
    have h2 : l2norm [(1 : ℝ), 0] = 1 := by
      simp [l2norm]
    have hco : cosineVal (embedC2 "a") cacheEntryC2.embedding = 0 := by
      show cosineVal [(0 : ℝ), 1] [(1 : ℝ), 0] = 0
      unfold cosineVal
      rw [if_neg (by rw [h1, h2]; norm_num)]
      have hd : dotProduct [(0 : ℝ), 1] [(1 : ℝ), 0] = 0 := by
        simp [dotProduct]
      rw [hd]
      simp
    rw [hco]
    show (0 : ℝ) < cacheStateC2.threshold
    have : cacheStateC2.threshold = 0.85 := rfl
    rw [this]
    norm_num

/-- C2 (amended): for a positive threshold and a query with no exact
normalized-string match among the stored entries, `get_cached_result`
returns a hit iff some stored entry's cosine similarity reaches the
threshold, i.e. iff the maximal similarity s satisfies s ≥ τ — in
particular s = τ exactly at the boundary is a hit.  (The original claim
fails only on the exact-match fast path and on non-positive thresholds.) -/
theorem c2_lookup_threshold :
    ∀ (embed : String → List ℝ) (st : CacheState) (q : String),
    0 < st.threshold →
    (∀ e ∈ st.cache, normalizeQ e.query ≠ normalizeQ q) →
    ((get_cached_result embed st q).1.isSome = true
      ↔ ∃ e ∈ st.cache, st.threshold ≤ cosineVal (embed q) e.embedding) := by
  intro embed st q ht hex
  unfold get_cached_result
  by_cases hemp : st.cache.isEmpty = true
  · rw [if_pos hemp]
    rw [List.isEmpty_iff] at hemp
    simp [hemp]
  · rw [if_neg hemp]
    simp only [find_none_of_no_match hex]
    by_cases hth : st.threshold ≤ (scanBest (embed q) st.cache (none, 0)).2
    · rw [if_pos hth]
      constructor
      · intro _
        rcases (scanBest_snd_ge_iff (embed q) st.threshold st.cache none 0).mp
            hth with h0 | hfound
        · linarith
        · exact hfound
      · intro _
        rcases scanBest_cases (embed q) st.cache none 0 with heq | hs
        · rw [heq] at hth
          simp at hth
          linarith
        · exact hs
    · rw [if_neg hth]
      simp only [Option.isSome_none, Bool.false_eq_true, false_iff]
      intro hfound
      exact hth ((scanBest_snd_ge_iff (embed q) st.threshold st.cache
        none 0).mpr (Or.inr hfound))

/-- Witness for C2's amended theorem at a concrete input: one entry whose
similarity with the query is 1 ≥ 0.85, no exact string match. -/
theorem c2_witness :
    (0 : ℝ) < cacheStateC2.threshold
    ∧ ((get_cached_result (fun _ => [(1 : ℝ), 0]) cacheStateC2 "b").1.isSome
        = true
      ↔ ∃ e ∈ cacheStateC2.cache,
          cacheStateC2.threshold ≤ cosineVal [(1 : ℝ), 0] e.embedding) :=
  ⟨by rw [show cacheStateC2.threshold = 0.85 from rfl]; norm_num,
    c2_lookup_threshold (fun _ => [(1 : ℝ), 0]) cacheStateC2 "b"
      (by rw [show cacheStateC2.threshold = 0.85 from rfl]; norm_num)
      (by
        intro e he
        rw [show cacheStateC2.cache = [cacheEntryC2] from rfl,
          List.mem_singleton] at he
        subst he
        decide)⟩

/-! ## C5: store idempotence -/

lemma store_result_noop {embed : String → List ℝ} {st : CacheState}
    {q : String} (r : String)
    (hex : ∃ e ∈ st.cache, normalizeQ e.query = normalizeQ q) :
    store_result embed st q r = st := by
  unfold store_result
  rw [if_pos]
  rw [List.any_eq_true]
  obtain ⟨e, he, heq⟩ := hex
  exact ⟨e, he, by simpa using heq⟩

/-- C5: storing a query whose normalized form is already cached is a
no-op, and two stores of casing/whitespace variants of one query from a
state that does not yet hold it leave exactly one entry under that
normalized key. -/
theorem c5_store_idempotent :
    (∀ (embed : String → List ℝ) (st : CacheState) (q r : String),
      (∃ e ∈ st.cache, normalizeQ e.query = normalizeQ q) →
      store_result embed st q r = st)
    ∧ (∀ (embed : String → List ℝ) (st : CacheState) (q1 r1 q2 r2 : String),
      normalizeQ q1 = normalizeQ q2 →
      (∀ e ∈ st.cache, normalizeQ e.query ≠ normalizeQ q1) →
      store_result embed (store_result embed st q1 r1) q2 r2
        = store_result embed st q1 r1
      ∧ ((store_result embed st q1 r1).cache.filter
            (fun e => normalizeQ e.query == normalizeQ q1)).length = 1) := by
  constructor
  · intro embed st q r hex
    exact store_result_noop r hex
  · intro embed st q1 r1 q2 r2 h12 hno
    have hany : st.cache.any
        (fun e => normalizeQ e.query == normalizeQ q1) = false := by
      rw [List.any_eq_false]
      intro e he
      simpa using hno e he
    have hst1 : store_result embed st q1 r1
        = { st with cache := st.cache
            ++ [{ query := q1, result := r1, embedding := embed q1 }] } := by
      unfold store_result
      rw [if_neg (by simp [hany])]
    constructor
    · rw [hst1]
      apply store_result_noop
      refine ⟨{ query := q1, result := r1, embedding := embed q1 }, ?_, ?_⟩
      · simp
      · simpa using h12
    · rw [hst1]
      show (List.filter _ (st.cache ++ _)).length = 1
      rw [List.filter_append]
      have hf0 : st.cache.filter
          (fun e => normalizeQ e.query == normalizeQ q1) = [] := by
        rw [List.filter_eq_nil_iff]
        intro e he
        simpa using hno e he
      rw [hf0]
      simp

/-- Witness for C5 at a concrete input: storing "AI " and then "ai" into
an empty cache leaves exactly one entry. -/
theorem c5_witness :
    (store_result (fun _ => ([] : List ℝ))
        (store_result (fun _ => ([] : List ℝ))
          { threshold := 1, hits := 0, misses := 0, cache := [] } "AI " "r1")
        "ai" "r2"
      = store_result (fun _ => ([] : List ℝ))
          { threshold := 1, hits := 0, misses := 0, cache := [] } "AI " "r1")
    ∧ ((store_result (fun _ => ([] : List ℝ))
          { threshold := 1, hits := 0, misses := 0, cache := [] }
          "AI " "r1").cache.filter
        (fun e => normalizeQ e.query == normalizeQ "AI ")).length = 1 :=
  c5_store_idempotent.2 (fun _ => ([] : List ℝ))
    { threshold := 1, hits := 0, misses := 0, cache := [] } "AI " "r1"
    "ai" "r2" (by decide) (by intro e he; cases he)

/-! ## C10: lookup frame and counter effects -/

/-- C10 counterexample: at a (non-positive) zero threshold, with a query
whose only similarity is negative, the scan branch still counts a *hit*
(`best_similarity >= threshold` holds at 0 ≥ 0) yet returns `None`: a
lookup that misses from the caller's perspective increments `hits`, not
`misses`, so "hits on a hit, misses on a miss" fails as stated. -/
theorem c10_counterexample :
    (get_cached_result embedC10 cacheStateC10 "b").1 = none
    ∧ (get_cached_result embedC10 cacheStateC10 "b").2.hits = 1
    ∧ (get_cached_result embedC10 cacheStateC10 "b").2.misses = 0 := by
  have hsim : cosineVal (embedC10 "b")
      ({ query := "a", result := "r",
         embedding := [(1 : ℝ)] } : CacheEntry).embedding = -1 := by
    show cosineVal [(-1 : ℝ)] [(1 : ℝ)] = -1
    have h1 : l2norm [(-1 : ℝ)] = 1 := by
      simp [l2norm]
    have h2 : l2norm [(1 : ℝ)] = 1 := by
      simp [l2norm]
    unfold cosineVal
    rw [if_neg (by rw [h1, h2]; norm_num)]
    rw [h1, h2]
    have hd : dotProduct [(-1 : ℝ)] [(1 : ℝ)] = -1 := by
      simp [dotProduct]
    rw [hd]
    norm_num
  have hscan : scanBest (embedC10 "b") cacheStateC10.cache (none, (0 : ℝ))
      = (none, 0) := by
    show scanBest (embedC10 "b")
      [{ query := "a", result := "r", embedding := [(1 : ℝ)] }]
      (none, (0 : ℝ)) = (none, 0)
    unfold scanBest
    rw [if_neg (by rw [hsim]; norm_num)]
    rfl
  have hfind : cacheStateC10.cache.find?
      (fun e => normalizeQ e.query == normalizeQ "b") = none := by
    apply find_none_of_no_match
    intro e he
    rw [show cacheStateC10.cache
        = [{ query := "a", result := "r", embedding := [(1 : ℝ)] }] from rfl,
      List.mem_singleton] at he
    subst he
    decide
  have hmain : get_cached_result embedC10 cacheStateC10 "b"
      = (none, { cacheStateC10 with hits := 1 }) := by
    unfold get_cached_result
    rw [if_neg (by decide)]
    simp only [hfind]
    rw [hscan]
    rw [show cacheStateC10.threshold = (0 : ℝ) from rfl]
    rw [if_pos (by norm_num)]
    rfl
  rw [hmain]
  exact ⟨rfl, rfl, rfl⟩

/-- C10 (amended): a lookup never touches the entry list or the
threshold and increments the two counters by exactly one in total; and
whenever the configured threshold is positive (the documented 0–1 range)
the counters match the outcome: a returned hit increments `hits`, a
returned `None` increments `misses`.  (Non-positive thresholds break the
correspondence, as the counterexample shows.) -/
theorem c10_lookup_frame :
    ∀ (embed : String → List ℝ) (st : CacheState) (q : String),
    ((get_cached_result embed st q).2.cache = st.cache
      ∧ (get_cached_result embed st q).2.threshold = st.threshold
      ∧ (get_cached_result embed st q).2.hits
          + (get_cached_result embed st q).2.misses
          = st.hits + st.misses + 1)
    ∧ (0 < st.threshold →
        ((get_cached_result embed st q).1.isSome = true →
          (get_cached_result embed st q).2.hits = st.hits + 1
          ∧ (get_cached_result embed st q).2.misses = st.misses)
        ∧ ((get_cached_result embed st q).1 = none →
          (get_cached_result embed st q).2.misses = st.misses + 1
          ∧ (get_cached_result embed st q).2.hits = st.hits)) := by
  intro embed st q
  by_cases hemp : st.cache.isEmpty = true
  · rw [lookup_empty_eq hemp]
    refine ⟨⟨rfl, rfl, ?_⟩, fun _ => ⟨fun hs => ?_, fun _ => ⟨rfl, rfl⟩⟩⟩
    · change st.hits + (st.misses + 1) = st.hits + st.misses + 1
      omega
    · simp at hs
  · rw [Bool.not_eq_true] at hemp
    rcases hfind : st.cache.find?
        (fun e => normalizeQ e.query == normalizeQ q) with _ | e
    · rw [lookup_scan_eq hemp hfind]
      by_cases hth : st.threshold ≤ (scanBest (embed q) st.cache (none, 0)).2
      · rw [if_pos hth]
        refine ⟨⟨rfl, rfl, ?_⟩,
          fun htpos => ⟨fun _ => ⟨rfl, rfl⟩, fun hnone => ?_⟩⟩
        · change st.hits + 1 + st.misses = st.hits + st.misses + 1
          omega
        · exfalso
          rcases scanBest_cases (embed q) st.cache none 0 with heq | hs
          · rw [heq] at hth
            simp at hth
            linarith
          · have hnone2 : (scanBest (embed q) st.cache (none, 0)).1 = none :=
              hnone
            rw [hnone2] at hs
            simp at hs
      · rw [if_neg hth]
        refine ⟨⟨rfl, rfl, ?_⟩,
          fun _ => ⟨fun hs => ?_, fun _ => ⟨rfl, rfl⟩⟩⟩
        · change st.hits + (st.misses + 1) = st.hits + st.misses + 1
          omega
        · simp at hs
    · rw [lookup_exact_eq hemp hfind]
      refine ⟨⟨rfl, rfl, ?_⟩,
        fun _ => ⟨fun _ => ⟨rfl, rfl⟩, fun hnone => ?_⟩⟩
      · change st.hits + 1 + st.misses = st.hits + st.misses + 1
        omega
      · simp at hnone

/-- Witness for C10 at a concrete input: an exact-match lookup on a
positive-threshold cache leaves the entries unchanged and increments
`hits`. -/
theorem c10_witness :
    ((get_cached_result (fun _ => ([] : List ℝ))
        { threshold := 1, hits := 0, misses := 0,
          cache := [{ query := "a", result := "r", embedding := [] }] }
        "a").2.cache
      = ({ threshold := 1, hits := 0, misses := 0,
           cache := [{ query := "a", result := "r", embedding := [] }] }
          : CacheState).cache)
    ∧ ((get_cached_result (fun _ => ([] : List ℝ))
        { threshold := 1, hits := 0, misses := 0,
          cache := [{ query := "a", result := "r", embedding := [] }] }
        "a").1.isSome = true →
      (get_cached_result (fun _ => ([] : List ℝ))
        { threshold := 1, hits := 0, misses := 0,
          cache := [{ query := "a", result := "r", embedding := [] }] }
        "a").2.hits
        = ({ threshold := 1, hits := 0, misses := 0,
             cache := [{ query := "a", result := "r", embedding := [] }] }
            : CacheState).hits + 1
      ∧ (get_cached_result (fun _ => ([] : List ℝ))
          { threshold := 1, hits := 0, misses := 0,
            cache := [{ query := "a", result := "r", embedding := [] }] }
          "a").2.misses
        = ({ threshold := 1, hits := 0, misses := 0,
             cache := [{ query := "a", result := "r", embedding := [] }] }
            : CacheState).misses) :=
  ⟨(c10_lookup_frame (fun _ => ([] : List ℝ))
      { threshold := 1, hits := 0, misses := 0,
        cache := [{ query := "a", result := "r", embedding := [] }] }
      "a").1.1,
    ((c10_lookup_frame (fun _ => ([] : List ℝ))
      { threshold := 1, hits := 0, misses := 0,
        cache := [{ query := "a", result := "r", embedding := [] }] }
      "a").2 (show (0 : ℝ) < 1 by norm_num)).1⟩
